import Mathlib

/-!
# Verification of the `discord_forums` thread-lifecycle manager

Shallow embedding of `src/main.py`: the bot's tracking state (the four
dictionaries held by `ThreadManager`), the event handlers that mutate it,
and the outbound commands they issue.  Timestamps are integral seconds
(`Int`), identifiers are `Nat`, Python dictionaries are association lists
over `Nat` keys.

Modelling conventions, fixed once here:

* At every label-application site the source computes
  `track_posts[owner][2] + self.tags.<x>`, i.e. Python `list + ForumTag`,
  which raises TypeError.  Each such site is modelled faithfully as raising
  at that line: the mutations already performed stay, the statements after
  it are unreached, and the handler's `err` records the escaped exception.
  Consequently the archiving edit of `_handle_duplicate_post` (whose
  `thread.edit` call at lines 449-454 additionally omits a comma), the
  setup edit/message/pin/reminder of `_setup_new_thread`, the in-progress
  edit and reminder reset of `_handle_thread_message` on unlabelled
  threads, the inactive edit and handle pop of `_send_inactivity_reminder`,
  and the archiving edit of `_auto_close_inactive_thread` are never
  executed.  (The two dead `then`-branches guarded by attribute lookups in
  `close_thread_on_leave` and `close_button_press` spell out what the
  source would do if its attribute reads succeeded; they are unreachable.)
* Outbound commands (`thread.send`, `thread.edit`, pinning, posting to the
  bump channel) are recorded as `Effect`s in the order the source issues
  them; the commands themselves never fail in the model.
* A Python exception escaping a handler is recorded in the `err` field of
  the handler's `Outcome`, with all state mutations applied up to the point
  of the raise, matching in-place dictionary mutation.
-/

namespace DiscordForums

/-! ## Configuration constants (class `Config`, source lines 29-37) -/

def TROUBLESHOOT_FORUM_ID : Nat := 1184892779671851068

def BUMP_CHANNEL_ID : Nat := 1211083331546914866

def REMINDER_TIME : Int := 24 * 3600

def AUTO_CLOSE_TIME : Int := 48 * 3600

def CLOSE_ON_LEAVE : Bool := true

/-! Forum tag identifiers (`ForumTags`, source lines 320-327). -/

def awaiting_response_tag : Nat := 1184982256423551006

def in_progress_tag : Nat := 1185355746146275368

def solved_closed_tag : Nat := 1185355888102490112

def inactive_tag : Nat := 1406317680289644646

/-! ## Association-list model of Python dictionaries -/

/-- Dictionary lookup `m.get(k)` / `m[k]`: value at the first matching key. -/
def findA {β : Type} : List (Nat × β) → Nat → Option β
  | [], _ => none
  | p :: rest, k => if p.1 = k then some p.2 else findA rest k

/-- Dictionary write `m[k] = v`: replaces in place, preserving key order,
appending a fresh key at the end (Python dict update semantics). -/
def insertA {β : Type} : List (Nat × β) → Nat → β → List (Nat × β)
  | [], k, v => [(k, v)]
  | p :: rest, k, v => if p.1 = k then (k, v) :: rest else p :: insertA rest k v

/-- Dictionary removal `m.pop(k, None)` / `del m[k]`: drops entries with the
key (on duplicate-free keys this is exactly Python's removal). -/
def eraseA {β : Type} : List (Nat × β) → Nat → List (Nat × β)
  | [], _ => []
  | p :: rest, k => if p.1 = k then eraseA rest k else p :: eraseA rest k

/-! ## Data model -/

/-- The slice of a `discord.Thread` the handlers read. -/
structure ThreadInfo where
  parent_id : Nat
  owner_id : Nat
  applied_tags : List Nat
  deriving DecidableEq

/-- One `track_posts` value: the source stores the Python list
`[thread.id, thread.owner.id, thread.applied_tags]` (line 462); index 1 is
subsequently used as the last responder (lines 521, 528). -/
structure TrackRecord where
  thread_id : Nat
  last_responder : Nat
  creation_tags : List Nat
  deriving DecidableEq

/-- Python values as far as the stored record shape matters. -/
inductive PyVal where
  | int (n : Nat)
  | tagList (tags : List Nat)
  deriving DecidableEq

/-- The Python list actually stored in `track_posts` (source line 462). -/
def TrackRecord.toPyList (r : TrackRecord) : List PyVal :=
  [PyVal.int r.thread_id, PyVal.int r.last_responder, PyVal.tagList r.creation_tags]

/-- Python tuple destructure `a, b = xs`: succeeds only on exactly two
elements, otherwise ValueError. -/
def unpack2 : List PyVal → Option (PyVal × PyVal)
  | [a, b] => some (a, b)
  | _ => none

/-- Object attributes read through `self.<name>` at the sites of interest. -/
inductive AttrName where
  | tags
  | tag
  | track_posts
  | bot
  | thread
  deriving DecidableEq

/-- `DiscordBot` holds its forum-tag container as `self.tags`
(source lines 358 and 402); there is no attribute `tag`. -/
def botHasAttr : AttrName → Bool
  | AttrName.tags => true
  | _ => false

/-- `BaseButton.__init__` sets only `self.bot` and `self.thread`
(source lines 71-73). -/
def buttonHasAttr : AttrName → Bool
  | AttrName.bot => true
  | AttrName.thread => true
  | _ => false

/-- Exception classes raised by the embedded code paths. -/
inductive PyError where
  | attributeError
  | keyError
  | valueError
  | typeError
  deriving DecidableEq

/-- The distinct messages the handlers send into a thread. -/
inductive NoticeKind where
  | openingQuestions
  | duplicate (existing_thread_id : Nat)
  | inactivity (last_active : Int)
  | closedByUser (user_id : Nat)
  | closedOpLeft
  | closedInactivity
  deriving DecidableEq

/-- Escalation reason: the owner path passes the fixed text
`Inactive post` (line 175); staff type free text into the modal. -/
inductive BumpReason where
  | inactivePost
  | staffText (n : Nat)
  deriving DecidableEq

/-- Outbound commands, in the order the source issues them. -/
inductive Effect where
  | sendMessage (thread_id : Nat) (notice : NoticeKind)
  | editTags (thread_id : Nat) (tags : List Nat)
  | closeEdit (thread_id : Nat) (tags : List Nat)
  | pinMessage (thread_id : Nat)
  | postEscalation (channel_id thread_id user_id : Nat) (reason : BumpReason)
  | confirmBump (user_id : Nat)
  | permissionMessage (user_id : Nat)
  deriving DecidableEq

/-- `ThreadManager` (source lines 330-337) plus task bookkeeping:
`live_tasks` lists the reminder `asyncio.Task`s that are neither cancelled
nor finished, as `(thread_id, token)` pairs; `next_token` supplies fresh task
identities. -/
structure BotState where
  activity : List (Nat × Int)
  scheduled_reminders : List (Nat × Nat)
  track_posts : List (Nat × TrackRecord)
  bump_bool : List (Nat × Bool)
  live_tasks : List (Nat × Nat)
  next_token : Nat
  deriving DecidableEq

/-- Result of one handler invocation: the state after all mutations that were
reached, the outbound commands issued, and the exception that escaped, if
any. -/
structure Outcome where
  state : BotState
  effects : List Effect
  err : Option PyError
  deriving DecidableEq

/-! ## Task bookkeeping -/

/-- `task.cancel()`: the task holding this token stops being live. -/
def cancelToken : List (Nat × Nat) → Nat → List (Nat × Nat)
  | [], _ => []
  | p :: rest, tok => if p.2 = tok then cancelToken rest tok else p :: cancelToken rest tok

/-- A task whose body has run to completion (or raised) is finished. -/
def finishTask : List (Nat × Nat) → Nat × Nat → List (Nat × Nat)
  | [], _ => []
  | p :: rest, q => if p = q then finishTask rest q else p :: finishTask rest q

/-! ## Handlers -/

/-- `ThreadManager.cleanup_thread` (source lines 339-348). -/
def cleanup_thread (s : BotState) (thread_id owner_id : Nat) : BotState :=
  let s1 := { s with activity := eraseA s.activity thread_id,
                     track_posts := eraseA s.track_posts owner_id }
  let s2 :=
    match findA s1.scheduled_reminders thread_id with
    | some tok =>
        { s1 with live_tasks := cancelToken s1.live_tasks tok,
                  scheduled_reminders := eraseA s1.scheduled_reminders thread_id }
    | none => s1
  { s2 with bump_bool := eraseA s2.bump_bool thread_id }

/-- `DiscordBot._reset_thread_reminder` (source lines 539-547): cancel the
existing task, if any, then arm a fresh one. -/
def reset_thread_reminder (s : BotState) (thread_id : Nat) : BotState :=
  let s1 :=
    match findA s.scheduled_reminders thread_id with
    | some tok => { s with live_tasks := cancelToken s.live_tasks tok }
    | none => s
  { s1 with scheduled_reminders := insertA s1.scheduled_reminders thread_id s1.next_token,
            live_tasks := s1.live_tasks ++ [(thread_id, s1.next_token)],
            next_token := s1.next_token + 1 }

/-- `DiscordBot._setup_new_thread` (source lines 459-496): line 462 registers
the record `[thread.id, thread.owner.id, thread.applied_tags]`; line 463 then
computes `track_posts[owner][2] + self.tags.awaiting_response`, and Python
`list + ForumTag` raises TypeError, so the thread edit, the opening message,
the pin, the activity entry, the bump entry and the reminder (lines 465-496)
are never reached. -/
def setup_new_thread (s : BotState) (thread_id : Nat) (t : ThreadInfo) (_now : Int) : Outcome :=
  let r : TrackRecord :=
    { thread_id := thread_id, last_responder := t.owner_id, creation_tags := t.applied_tags }
  let s1 := { s with track_posts := insertA s.track_posts t.owner_id r }
  { state := s1, effects := [], err := some PyError.typeError }

/-- `DiscordBot.on_thread_create` (source lines 414-424) with
`_handle_duplicate_post` (lines 437-457) inlined as its duplicate branch:
there the duplicate notice is sent (line 447), and line 448 then computes
`track_posts[owner][2] + self.tags.solved_closed`, raising TypeError
(`list + ForumTag`) — and the `thread.edit` call at lines 449-454 is itself
a syntax error, missing a comma — so the closing edit is never issued. -/
def on_thread_create (s : BotState) (thread_id : Nat) (t : ThreadInfo) (now : Int) : Outcome :=
  if t.parent_id ≠ TROUBLESHOOT_FORUM_ID then { state := s, effects := [], err := none }
  else
    match findA s.track_posts t.owner_id with
    | some r =>
        { state := s,
          effects := [Effect.sendMessage thread_id (NoticeKind.duplicate r.thread_id)],
          err := some PyError.typeError }
    | none => setup_new_thread s thread_id t now

/-- `DiscordBot._handle_thread_message` (source lines 509-537).  After the
guards, lines 528-530 update the responder, the activity timestamp and the
bump flag.  If the in-progress tag is already applied, the `if` at line 532
is false and the reminder reset at line 537 runs; otherwise line 533
computes `track_posts[owner][2] + self.tags.in_progress`, raising TypeError
(`list + ForumTag`) before the edit and before the reset. -/
def handle_thread_message (s : BotState) (thread_id : Nat) (t : ThreadInfo)
    (author_id : Nat) (author_is_bot : Bool) (now : Int) : Outcome :=
  if t.parent_id ≠ TROUBLESHOOT_FORUM_ID then { state := s, effects := [], err := none }
  else if author_is_bot then { state := s, effects := [], err := none }
  else
    match findA s.track_posts t.owner_id with
    | none => { state := s, effects := [], err := none }
    | some r =>
        if r.last_responder = author_id then { state := s, effects := [], err := none }
        else
          let r1 := { r with last_responder := author_id }
          let s1 := { s with track_posts := insertA s.track_posts t.owner_id r1 }
          let s2 := { s1 with activity := insertA s1.activity thread_id now }
          let s3 := { s2 with bump_bool := insertA s2.bump_bool thread_id false }
          if in_progress_tag ∈ t.applied_tags then
            { state := reset_thread_reminder s3 thread_id, effects := [], err := none }
          else
            { state := s3, effects := [], err := some PyError.typeError }

/-- The body of `DiscordBot.schedule_thread_reminder` (source lines 580-594)
as it runs when its sleep elapses at time `now`, with
`_send_inactivity_reminder` (lines 596-611) inlined; `tok` is the identity of
the firing task, which is finished afterwards in every branch.  The elapsed
time is re-measured against the current `thread_activity` entry (line 590).
On the transition branch, bump_bool is set (line 601) and the notice sent
(line 609); line 610 then reads `track_posts[thread.owner.id]` (KeyError if
the owner is untracked) and adds `self.tags.inactive` to the list, raising
TypeError — either exception escapes `_send_inactivity_reminder`, so the
inactive-label edit is never issued and the pop at line 594 is skipped,
leaving the handle entry registered.  Only the stale branch reaches the
pop. -/
def reminder_task_fires (s : BotState) (thread_id owner_id tok : Nat) (now : Int) : Outcome :=
  match findA s.activity thread_id with
  | none =>
      { state := { s with live_tasks := finishTask s.live_tasks (thread_id, tok) },
        effects := [], err := none }
  | some last_active =>
      if REMINDER_TIME ≤ now - last_active then
        let s1 := { s with bump_bool := insertA s.bump_bool thread_id true }
        match findA s1.track_posts owner_id with
        | none =>
            { state := { s1 with live_tasks := finishTask s1.live_tasks (thread_id, tok) },
              effects := [Effect.sendMessage thread_id (NoticeKind.inactivity last_active)],
              err := some PyError.keyError }
        | some _ =>
            { state := { s1 with live_tasks := finishTask s1.live_tasks (thread_id, tok) },
              effects := [Effect.sendMessage thread_id (NoticeKind.inactivity last_active)],
              err := some PyError.typeError }
      else
        -- stale firing: no transition, but line 594 still pops the handle
        let s2 := { s with scheduled_reminders := eraseA s.scheduled_reminders thread_id }
        { state := { s2 with live_tasks := finishTask s2.live_tasks (thread_id, tok) },
          effects := [], err := none }

/-- `MarkPriorityButton.process_bump` (source lines 179-206). -/
def process_bump (s : BotState) (thread_id user_id : Nat) (user_is_op : Bool)
    (reason : BumpReason) (bump_channel_found : Bool) : BotState × List Effect :=
  if ¬bump_channel_found then (s, [])
  else
    let s1 := if user_is_op then { s with bump_bool := insertA s.bump_bool thread_id false }
              else s
    (s1, [Effect.postEscalation BUMP_CHANNEL_ID thread_id user_id reason,
          Effect.confirmBump user_id])

/-- `MarkPriorityButton.callback` (source lines 164-177); the staff branch
stands for the modal round-trip that ends in `process_bump` with the typed
reason. -/
def mark_priority_callback (s : BotState) (thread_id user_id : Nat)
    (user_is_staff user_is_op : Bool) (staff_reason : BumpReason)
    (bump_channel_found : Bool) : BotState × List Effect :=
  if user_is_staff then process_bump s thread_id user_id user_is_op staff_reason bump_channel_found
  else if user_is_op && (findA s.bump_bool thread_id).getD false then
    process_bump s thread_id user_id user_is_op BumpReason.inactivePost bump_channel_found
  else (s, [Effect.permissionMessage user_id])

/-- `DiscordBot._close_thread_on_leave` (source lines 565-578): the closing
notice is sent (line 571); line 572 then evaluates
`self.track_posts[thread.owner.id][2] + self.tag.solved_closed` — the record
access succeeds, but `self.tag` is not an attribute of the bot (it defines
`tags`), so AttributeError is raised before the archiving edit is issued. -/
def close_thread_on_leave (s : BotState) (r : TrackRecord) : Outcome :=
  if botHasAttr AttrName.tag then
    { state := s,
      effects := [Effect.sendMessage r.thread_id NoticeKind.closedOpLeft,
                  Effect.closeEdit r.thread_id (r.creation_tags ++ [solved_closed_tag])],
      err := none }
  else
    { state := s,
      effects := [Effect.sendMessage r.thread_id NoticeKind.closedOpLeft],
      err := some PyError.attributeError }

/-- `DiscordBot.on_member_remove` (source lines 549-563): `thread_resolves`
models `get_channel` returning a live `discord.Thread`; an exception from the
close attempt is caught and logged, and the `finally` block always runs
`cleanup_thread_tracking`. -/
def on_member_remove (s : BotState) (member_id : Nat) (thread_resolves : Bool) : Outcome :=
  if ¬CLOSE_ON_LEAVE then { state := s, effects := [], err := none }
  else
    match findA s.track_posts member_id with
    | none => { state := s, effects := [], err := none }
    | some r =>
        let attempt := if thread_resolves then close_thread_on_leave s r
                       else { state := s, effects := [], err := none }
        { state := cleanup_thread attempt.state r.thread_id member_id,
          effects := attempt.effects, err := none }

/-- `CloseButton.callback` with `CloseButton._close_thread` (source lines
94-137): the closing notice is sent (line 126); line 127 then reads
`self.track_posts` on the button object, whose only attributes are `bot` and
`thread`, so AttributeError is raised and the `cleanup_thread_tracking` call
at line 136 is never reached. -/
def close_button_press (s : BotState) (thread_id owner_id user_id : Nat)
    (user_is_owner user_is_staff : Bool) (r : TrackRecord) : Outcome :=
  if user_is_owner || user_is_staff then
    if buttonHasAttr AttrName.track_posts then
      { state := cleanup_thread s thread_id owner_id,
        effects := [Effect.sendMessage thread_id (NoticeKind.closedByUser user_id),
                    Effect.closeEdit thread_id (r.creation_tags ++ [solved_closed_tag])],
        err := none }
    else
      { state := s,
        effects := [Effect.sendMessage thread_id (NoticeKind.closedByUser user_id)],
        err := some PyError.attributeError }
  else { state := s, effects := [Effect.permissionMessage user_id], err := none }

/-- `DiscordBot.on_thread_delete` (source lines 426-435). -/
def on_thread_delete (s : BotState) (thread_id : Nat) (t : ThreadInfo) : Outcome :=
  if t.parent_id ≠ TROUBLESHOOT_FORUM_ID then { state := s, effects := [], err := none }
  else if solved_closed_tag ∈ t.applied_tags then { state := s, effects := [], err := none }
  else { state := cleanup_thread s thread_id t.owner_id, effects := [], err := none }

/-! ## The auto-close sweep -/

/-- Output of the closing loop of `check_inactivity_task`. -/
structure SweepScanOut where
  effects : List Effect
  to_remove : List Nat
  err : Option PyError
  deriving DecidableEq

/-- The first loop of `DiscordBot.check_inactivity_task` (source lines
616-624), with `_auto_close_inactive_thread` (lines 636-649) inlined.
`world` models `get_channel`: the threads it resolves.  When a selected
thread resolves, the closing notice is sent (line 642); line 643 then reads
`track_posts[thread.owner.id]` (KeyError if the owner is untracked) and adds
`self.tags.solved_closed` to the list, raising TypeError — either way the
exception aborts the whole task: no archiving edit, no `to_remove.append`
(line 624), no later iteration and no cleanup loop.  When the thread does
not resolve, the `isinstance` guard skips the close but the id is still
appended to `to_remove`. -/
def sweep_scan (posts : List (Nat × TrackRecord)) (world : List (Nat × ThreadInfo))
    (now : Int) : List (Nat × Int) → SweepScanOut
  | [] => { effects := [], to_remove := [], err := none }
  | (thread_id, last_active) :: rest =>
      if AUTO_CLOSE_TIME ≤ now - last_active then
        match findA world thread_id with
        | some t =>
            match findA posts t.owner_id with
            | some _ =>
                { effects := [Effect.sendMessage thread_id NoticeKind.closedInactivity],
                  to_remove := [], err := some PyError.typeError }
            | none =>
                { effects := [Effect.sendMessage thread_id NoticeKind.closedInactivity],
                  to_remove := [], err := some PyError.keyError }
        | none =>
            let tail := sweep_scan posts world now rest
            { effects := tail.effects, to_remove := thread_id :: tail.to_remove,
              err := tail.err }
      else
        sweep_scan posts world now rest

/-- The owner search of the sweep's cleanup loop (source lines 628-632):
`for uid, (tid, _) in self.track_posts.items()`.  Each stored value is the
three-element list `[thread_id, last_responder, creation_tags]` (line 462),
so the two-element destructure raises ValueError on the first item. -/
def find_owner_by_thread : List (Nat × TrackRecord) → Nat → Except PyError (Option Nat)
  | [], _ => Except.ok none
  | (uid, r) :: rest, thread_id =>
      match unpack2 r.toPyList with
      | none => Except.error PyError.valueError
      | some (a, _) =>
          if a = PyVal.int thread_id then Except.ok (some uid)
          else find_owner_by_thread rest thread_id

/-- The cleanup loop of `check_inactivity_task` (source lines 627-634);
`if owner_id:` is Python truthiness, so owner id `0` is also skipped. -/
def sweep_cleanup (s : BotState) : List Nat → BotState × Option PyError
  | [] => (s, none)
  | thread_id :: rest =>
      match find_owner_by_thread s.track_posts thread_id with
      | Except.error e => (s, some e)
      | Except.ok none => sweep_cleanup s rest
      | Except.ok (some owner_id) =>
          if owner_id ≠ 0 then sweep_cleanup (cleanup_thread s thread_id owner_id) rest
          else sweep_cleanup s rest

/-- `DiscordBot.check_inactivity_task` (source lines 613-634): close every
tracked thread whose inactivity reaches the threshold, then clean up — an
exception in either loop aborts the task there, leaving the remaining
mutations undone. -/
def check_inactivity_task (s : BotState) (world : List (Nat × ThreadInfo)) (now : Int) :
    Outcome :=
  let scan := sweep_scan s.track_posts world now s.activity
  match scan.err with
  | some e => { state := s, effects := scan.effects, err := some e }
  | none =>
      let cleaned := sweep_cleanup s scan.to_remove
      { state := cleaned.1, effects := scan.effects, err := cleaned.2 }

/-! ## Serialized event steps -/

/-- The serialized events that touch tracking state. -/
inductive Op where
  | threadCreate (thread_id : Nat) (t : ThreadInfo) (now : Int)
  | message (thread_id : Nat) (t : ThreadInfo) (author_id : Nat) (author_is_bot : Bool)
      (now : Int)
  | reminderFires (thread_id owner_id tok : Nat) (now : Int)
  | memberRemove (member_id : Nat) (thread_resolves : Bool)
  | sweep (world : List (Nat × ThreadInfo)) (now : Int)
  | threadDelete (thread_id : Nat) (t : ThreadInfo)
  | closePress (thread_id owner_id user_id : Nat) (user_is_owner user_is_staff : Bool)
      (r : TrackRecord)
  | bumpPress (thread_id user_id : Nat) (user_is_staff user_is_op : Bool)
      (reason : BumpReason) (bump_channel_found : Bool)

/-- Dispatch an event to its handler. -/
def applyOp (s : BotState) : Op → Outcome
  | Op.threadCreate tid t now => on_thread_create s tid t now
  | Op.message tid t aid abot now => handle_thread_message s tid t aid abot now
  | Op.reminderFires tid oid tok now => reminder_task_fires s tid oid tok now
  | Op.memberRemove uid res => on_member_remove s uid res
  | Op.sweep world now => check_inactivity_task s world now
  | Op.threadDelete tid t => on_thread_delete s tid t
  | Op.closePress tid oid uid isown isstaff r => close_button_press s tid oid uid isown isstaff r
  | Op.bumpPress tid uid isstaff isop reason chfound =>
      let p := mark_priority_callback s tid uid isstaff isop reason chfound
      { state := p.1, effects := p.2, err := none }

/-- Environment guarantees for an event: Discord thread ids are fresh at
creation (no reminder task for a newly created thread id can already exist),
and only a live task ever runs its body (a cancelled task never resumes). -/
def OpOk (s : BotState) : Op → Prop
  | Op.threadCreate tid _ _ => ∀ p ∈ s.live_tasks, p.1 ≠ tid
  | Op.reminderFires tid _ tok _ => (tid, tok) ∈ s.live_tasks
  | _ => True

/-- Reminder-scheduler invariant: every thread has at most one live reminder
task, and each live task is exactly the one registered for its thread in
`scheduled_reminders`. -/
def ReminderInv (s : BotState) : Prop :=
  s.live_tasks.Pairwise (fun p q => p.1 ≠ q.1)
  ∧ ∀ p ∈ s.live_tasks, findA s.scheduled_reminders p.1 = some p.2

/-! ## Concrete instances used to exercise the handlers -/

/-- Empty tracking state (fresh bot). -/
def emptyState : BotState :=
  { activity := [], scheduled_reminders := [], track_posts := [], bump_bool := [],
    live_tasks := [], next_token := 0 }

def c1_rec : TrackRecord := { thread_id := 1, last_responder := 10, creation_tags := [5] }

def c1_state : BotState :=
  { activity := [(1, 0)], scheduled_reminders := [(1, 0)], track_posts := [(10, c1_rec)],
    bump_bool := [(1, false)], live_tasks := [(1, 0)], next_token := 1 }

def c1_thread : ThreadInfo :=
  { parent_id := TROUBLESHOOT_FORUM_ID, owner_id := 10, applied_tags := [] }

def c2_rec : TrackRecord := { thread_id := 1, last_responder := 10, creation_tags := [] }

def c2_state : BotState :=
  { activity := [(1, 0)], scheduled_reminders := [], track_posts := [(10, c2_rec)],
    bump_bool := [(1, false)], live_tasks := [], next_token := 1 }

def c2_world : List (Nat × ThreadInfo) :=
  [(1, { parent_id := TROUBLESHOOT_FORUM_ID, owner_id := 10, applied_tags := [] })]

/-- A world in which `get_channel` no longer resolves thread 1 (deleted or
not cached), so the sweep reaches its cleanup loop. -/
def c2_world_unresolved : List (Nat × ThreadInfo) := []

def c3_rec : TrackRecord := { thread_id := 1, last_responder := 10, creation_tags := [] }

def c3_state : BotState :=
  { activity := [(1, 0)], scheduled_reminders := [(1, 7)], track_posts := [(10, c3_rec)],
    bump_bool := [(1, false)], live_tasks := [(1, 7)], next_token := 8 }

def c4_rec : TrackRecord := { thread_id := 1, last_responder := 10, creation_tags := [] }

def c4_state : BotState :=
  { activity := [(1, 0)], scheduled_reminders := [], track_posts := [(10, c4_rec)],
    bump_bool := [(1, false)], live_tasks := [], next_token := 1 }

def c4_world : List (Nat × ThreadInfo) :=
  [(1, { parent_id := TROUBLESHOOT_FORUM_ID, owner_id := 10, applied_tags := [] })]

def c5_op : Op :=
  Op.threadCreate 1 { parent_id := TROUBLESHOOT_FORUM_ID, owner_id := 10, applied_tags := [] } 0

def c5f_rec : TrackRecord := { thread_id := 1, last_responder := 10, creation_tags := [] }

def c5f_state : BotState :=
  { activity := [(1, 0)], scheduled_reminders := [(1, 7)], track_posts := [(10, c5f_rec)],
    bump_bool := [(1, false)], live_tasks := [(1, 7)], next_token := 8 }

def c6_rec : TrackRecord := { thread_id := 1, last_responder := 22, creation_tags := [] }

def c6_state : BotState :=
  { activity := [(1, 0)], scheduled_reminders := [(1, 0)], track_posts := [(10, c6_rec)],
    bump_bool := [(1, false)], live_tasks := [(1, 0)], next_token := 1 }

def c6_thread : ThreadInfo :=
  { parent_id := TROUBLESHOOT_FORUM_ID, owner_id := 10, applied_tags := [in_progress_tag] }

def c7_state : BotState :=
  { activity := [(1, 0)], scheduled_reminders := [], track_posts := [],
    bump_bool := [(1, true)], live_tasks := [], next_token := 0 }

def c8_rec : TrackRecord := { thread_id := 1, last_responder := 10, creation_tags := [] }

def c8_state : BotState :=
  { activity := [(1, 0)], scheduled_reminders := [(1, 3)], track_posts := [(10, c8_rec)],
    bump_bool := [(1, true)], live_tasks := [(1, 3)], next_token := 4 }

def c9_rec : TrackRecord := { thread_id := 1, last_responder := 55, creation_tags := [] }

def c9_state : BotState :=
  { activity := [(1, 0)], scheduled_reminders := [(1, 2)], track_posts := [(10, c9_rec)],
    bump_bool := [(1, true)], live_tasks := [(1, 2)], next_token := 3 }

def c9_thread : ThreadInfo :=
  { parent_id := TROUBLESHOOT_FORUM_ID, owner_id := 10, applied_tags := [in_progress_tag] }

def c9x_rec : TrackRecord := { thread_id := 1, last_responder := 55, creation_tags := [] }

def c9x_state : BotState :=
  { activity := [(1, 0)], scheduled_reminders := [(1, 2)], track_posts := [(10, c9x_rec)],
    bump_bool := [(1, true)], live_tasks := [(1, 2)], next_token := 3 }

/-- The same thread before anyone replied: the in-progress label is absent. -/
def c9x_thread : ThreadInfo :=
  { parent_id := TROUBLESHOOT_FORUM_ID, owner_id := 10, applied_tags := [] }

/-! ## Basic lemmas about the dictionary model -/

theorem findA_insertA {β : Type} (m : List (Nat × β)) (k : Nat) (v : β) (k' : Nat) :
    findA (insertA m k v) k' = if k' = k then some v else findA m k' := by
  induction m with
  | nil =>
    by_cases h : k' = k
    · simp [insertA, findA, h]
    · have h2 : ¬ k = k' := fun hh => h hh.symm
      simp [insertA, findA, h, h2]
  | cons p rest ih =>
    by_cases hp : p.1 = k
    · by_cases h : k' = k
      · simp [insertA, findA, hp, h]
      · have h2 : ¬ k = k' := fun hh => h hh.symm
        have h3 : ¬ p.1 = k' := fun hh => h2 (hp ▸ hh)
        simp [insertA, findA, hp, h, h2, h3]
    · by_cases h : p.1 = k'
      · have h2 : ¬ k' = k := fun hh => hp (h.symm ▸ hh)
        simp [insertA, findA, hp, h, h2]
      · simp [insertA, findA, hp, h, ih]

theorem findA_eraseA {β : Type} (m : List (Nat × β)) (k k' : Nat) :
    findA (eraseA m k) k' = if k' = k then none else findA m k' := by
  induction m with
  | nil => by_cases h : k' = k <;> simp [eraseA, findA, h]
  | cons p rest ih =>
    by_cases hp : p.1 = k
    · by_cases h : k' = k
      · subst h
        simp [eraseA, findA, hp, ih]
      · have h2 : ¬ k = k' := fun hh => h hh.symm
        simp [eraseA, findA, hp, h, h2, ih]
    · by_cases h : p.1 = k'
      · have h2 : ¬ k' = k := fun hh => hp (h.trans hh)
        simp [eraseA, findA, hp, h, h2]
      · simp [eraseA, findA, hp, h, ih]

theorem findA_eraseA_self {β : Type} (m : List (Nat × β)) (k : Nat) :
    findA (eraseA m k) k = none := by
  simp [findA_eraseA]

/-! ## Lemmas about task bookkeeping -/

theorem cancelToken_sublist (l : List (Nat × Nat)) (tok : Nat) :
    List.Sublist (cancelToken l tok) l := by
  induction l with
  | nil => simp [cancelToken]
  | cons p rest ih =>
    by_cases h : p.2 = tok
    · simp only [cancelToken, if_pos h]
      exact ih.cons p
    · simp only [cancelToken, if_neg h]
      exact ih.cons₂ p

theorem finishTask_sublist (l : List (Nat × Nat)) (q : Nat × Nat) :
    List.Sublist (finishTask l q) l := by
  induction l with
  | nil => simp [finishTask]
  | cons p rest ih =>
    by_cases h : p = q
    · simp only [finishTask, if_pos h]
      exact ih.cons p
    · simp only [finishTask, if_neg h]
      exact ih.cons₂ p

theorem mem_cancelToken (l : List (Nat × Nat)) (tok : Nat) (p : Nat × Nat) :
    p ∈ cancelToken l tok ↔ p ∈ l ∧ p.2 ≠ tok := by
  induction l with
  | nil => simp [cancelToken]
  | cons q rest ih =>
    by_cases h : q.2 = tok
    · simp only [cancelToken, if_pos h, ih, List.mem_cons]
      constructor
      · rintro ⟨h1, h2⟩
        exact ⟨Or.inr h1, h2⟩
      · rintro ⟨h1 | h1, h2⟩
        · subst h1
          exact absurd h h2
        · exact ⟨h1, h2⟩
    · simp only [cancelToken, if_neg h, List.mem_cons, ih]
      constructor
      · rintro (h1 | ⟨h1, h2⟩)
        · subst h1
          exact ⟨Or.inl rfl, h⟩
        · exact ⟨Or.inr h1, h2⟩
      · rintro ⟨h1 | h1, h2⟩
        · exact Or.inl h1
        · exact Or.inr ⟨h1, h2⟩

theorem mem_finishTask (l : List (Nat × Nat)) (q p : Nat × Nat) :
    p ∈ finishTask l q ↔ p ∈ l ∧ p ≠ q := by
  induction l with
  | nil => simp [finishTask]
  | cons x rest ih =>
    by_cases h : x = q
    · simp only [finishTask, if_pos h, ih, List.mem_cons]
      constructor
      · rintro ⟨h1, h2⟩
        exact ⟨Or.inr h1, h2⟩
      · rintro ⟨h1 | h1, h2⟩
        · subst h1
          exact absurd h h2
        · exact ⟨h1, h2⟩
    · simp only [finishTask, if_neg h, List.mem_cons, ih]
      constructor
      · rintro (h1 | ⟨h1, h2⟩)
        · subst h1
          exact ⟨Or.inl rfl, h⟩
        · exact ⟨Or.inr h1, h2⟩
      · rintro ⟨h1 | h1, h2⟩
        · exact Or.inl h1
        · exact Or.inr ⟨h1, h2⟩

/-! ## Preservation of the reminder-scheduler invariant -/

theorem reminderInv_cleanup_thread (s : BotState) (tid uid : Nat) (h : ReminderInv s) :
    ReminderInv (cleanup_thread s tid uid) := by
  obtain ⟨hpw, hlink⟩ := h
  cases hrem : findA s.scheduled_reminders tid with
  | none =>
    simp only [cleanup_thread, hrem]
    exact ⟨hpw, hlink⟩
  | some tok =>
    simp only [cleanup_thread, hrem]
    refine ⟨List.Pairwise.sublist (cancelToken_sublist _ _) hpw, ?_⟩
    intro p hp
    rw [mem_cancelToken] at hp
    obtain ⟨hpl, hptok⟩ := hp
    have hl := hlink p hpl
    have hne : ¬ p.1 = tid := by
      intro he
      rw [he, hrem] at hl
      exact hptok (Option.some.inj hl).symm
    rw [findA_eraseA, if_neg hne]
    exact hl

theorem reminderInv_reset (s : BotState) (tid : Nat) (h : ReminderInv s) :
    ReminderInv (reset_thread_reminder s tid) := by
  obtain ⟨hpw, hlink⟩ := h
  cases hrem : findA s.scheduled_reminders tid with
  | none =>
    simp only [reset_thread_reminder, hrem]
    constructor
    · rw [List.pairwise_append]
      refine ⟨hpw, by simp, ?_⟩
      intro a ha b hb
      simp only [List.mem_singleton] at hb
      subst hb
      intro he
      have hx := hlink a ha
      rw [he, hrem] at hx
      exact Option.noConfusion hx
    · intro p hp
      rw [List.mem_append] at hp
      cases hp with
      | inl hp =>
        have hne : ¬ p.1 = tid := by
          intro he
          have hx := hlink p hp
          rw [he, hrem] at hx
          exact Option.noConfusion hx
        rw [findA_insertA, if_neg hne]
        exact hlink p hp
      | inr hp =>
        simp only [List.mem_singleton] at hp
        subst hp
        rw [findA_insertA, if_pos rfl]
  | some tok =>
    simp only [reset_thread_reminder, hrem]
    constructor
    · rw [List.pairwise_append]
      refine ⟨List.Pairwise.sublist (cancelToken_sublist _ _) hpw, by simp, ?_⟩
      intro a ha b hb
      simp only [List.mem_singleton] at hb
      subst hb
      rw [mem_cancelToken] at ha
      obtain ⟨hal, hatok⟩ := ha
      intro he
      have hx := hlink a hal
      rw [he, hrem] at hx
      exact hatok (Option.some.inj hx).symm
    · intro p hp
      rw [List.mem_append] at hp
      cases hp with
      | inl hp =>
        rw [mem_cancelToken] at hp
        obtain ⟨hpl, hptok⟩ := hp
        have hne : ¬ p.1 = tid := by
          intro he
          have hx := hlink p hpl
          rw [he, hrem] at hx
          exact hptok (Option.some.inj hx).symm
        rw [findA_insertA, if_neg hne]
        exact hlink p hpl
      | inr hp =>
        simp only [List.mem_singleton] at hp
        subst hp
        rw [findA_insertA, if_pos rfl]

theorem reminderInv_fire (s : BotState) (tid oid tok : Nat) (now : Int)
    (h : ReminderInv s) (hlive : (tid, tok) ∈ s.live_tasks) :
    ReminderInv (reminder_task_fires s tid oid tok now).state := by
  obtain ⟨hpw, hlink⟩ := h
  have htok : findA s.scheduled_reminders tid = some tok := hlink (tid, tok) hlive
  have hfin : ∀ (st : BotState), st.live_tasks = finishTask s.live_tasks (tid, tok) →
      (∀ p : Nat × Nat, p ∈ s.live_tasks → p ≠ (tid, tok) →
        findA st.scheduled_reminders p.1 = some p.2) →
      ReminderInv st := by
    intro st hlt hr
    constructor
    · rw [hlt]
      exact List.Pairwise.sublist (finishTask_sublist _ _) hpw
    · intro p hp
      rw [hlt, mem_finishTask] at hp
      exact hr p hp.1 hp.2
  have herase : ∀ p : Nat × Nat, p ∈ s.live_tasks → p ≠ (tid, tok) →
      findA (eraseA s.scheduled_reminders tid) p.1 = some p.2 := by
    intro p hp hne
    have hl := hlink p hp
    have h1 : ¬ p.1 = tid := by
      intro he
      rw [he, htok] at hl
      apply hne
      have h2 : p.2 = tok := (Option.some.inj hl).symm
      obtain ⟨pa, pb⟩ := p
      simp only at he h2
      rw [he, h2]
    rw [findA_eraseA, if_neg h1]
    exact hl
  have hkeep : ∀ p : Nat × Nat, p ∈ s.live_tasks → p ≠ (tid, tok) →
      findA s.scheduled_reminders p.1 = some p.2 := fun p hp _ => hlink p hp
  cases hact : findA s.activity tid with
  | none =>
    simp only [reminder_task_fires, hact]
    exact hfin _ rfl hkeep
  | some last =>
    by_cases hcmp : REMINDER_TIME ≤ now - last
    · cases hro : findA s.track_posts oid with
      | none =>
        simp only [reminder_task_fires, hact, if_pos hcmp, hro]
        exact hfin _ rfl hkeep
      | some r =>
        simp only [reminder_task_fires, hact, if_pos hcmp, hro]
        exact hfin _ rfl hkeep
    · simp only [reminder_task_fires, hact, if_neg hcmp]
      exact hfin _ rfl herase

theorem reminderInv_sweep_cleanup (l : List Nat) (s : BotState) (h : ReminderInv s) :
    ReminderInv (sweep_cleanup s l).1 := by
  induction l generalizing s with
  | nil => exact h
  | cons tid rest ih =>
    cases hf : find_owner_by_thread s.track_posts tid with
    | error e =>
      simp only [sweep_cleanup, hf]
      exact h
    | ok o =>
      cases o with
      | none =>
        simp only [sweep_cleanup, hf]
        exact ih s h
      | some uid =>
        by_cases huid : uid ≠ 0
        · simp only [sweep_cleanup, hf, if_pos huid]
          exact ih _ (reminderInv_cleanup_thread s tid uid h)
        · simp only [sweep_cleanup, hf, if_neg huid]
          exact ih s h

/-! ## Claim theorems -/

/-- C1 (code bug): when owner 10, already tracked with thread 1, opens
thread 2, the duplicate notice referencing thread 1 is sent and nothing is
registered — the full tracking state is returned unchanged, so the
existing record survives untouched — but the promised closing edit is never
issued: line 448 raises TypeError (`list + ForumTag`) right after the
notice, and the edit call at lines 449-454 is itself a syntax error, so the
closed label is never applied to the duplicate thread. -/
theorem duplicate_open_not_registered_but_never_closed :
    on_thread_create c1_state 2 c1_thread 50 =
      { state := c1_state,
        effects := [Effect.sendMessage 2 (NoticeKind.duplicate 1)],
        err := some PyError.typeError } := by
  decide

/-- C2 (code bug): the inactivity auto-close never completes its cleanup.
With tracked thread 1 at the threshold and the thread resolvable, the sweep
sends the closing notice and then dies with TypeError at line 643 — before
the archiving edit, before `to_remove.append` and before the cleanup loop.
With the thread no longer resolvable, its id does reach the cleanup loop,
whose `for uid, (tid, _) in track_posts.items()` (line 629) destructures the
three-element record as a pair and dies with ValueError.  In both runs the
activity entry, the owner-registry entry and the bump flag all survive the
terminal transition as orphans (the state is returned unchanged). -/
theorem autoclose_sweep_cleanup_orphans_tracking :
    (check_inactivity_task c2_state c2_world AUTO_CLOSE_TIME).effects =
      [Effect.sendMessage 1 NoticeKind.closedInactivity] ∧
    (check_inactivity_task c2_state c2_world AUTO_CLOSE_TIME).err =
      some PyError.typeError ∧
    (check_inactivity_task c2_state c2_world AUTO_CLOSE_TIME).state = c2_state ∧
    (check_inactivity_task c2_state c2_world_unresolved AUTO_CLOSE_TIME).effects = [] ∧
    (check_inactivity_task c2_state c2_world_unresolved AUTO_CLOSE_TIME).err =
      some PyError.valueError ∧
    (check_inactivity_task c2_state c2_world_unresolved AUTO_CLOSE_TIME).state = c2_state := by
  decide

/-- C6: a message whose author equals the thread's current last responder
changes nothing — the handler returns with the state identical, no outbound
command (so no label change), and no reminder reschedule. -/
theorem same_author_message_is_noop (s : BotState) (thread_id : Nat) (t : ThreadInfo)
    (author_id : Nat) (now : Int) (r : TrackRecord)
    (hparent : t.parent_id = TROUBLESHOOT_FORUM_ID)
    (hr : findA s.track_posts t.owner_id = some r)
    (hsame : r.last_responder = author_id) :
    handle_thread_message s thread_id t author_id false now =
      { state := s, effects := [], err := none } := by
  have hp : ¬ t.parent_id ≠ TROUBLESHOOT_FORUM_ID := by simp [hparent]
  simp only [handle_thread_message, if_neg hp, Bool.false_eq_true, if_false, hr, if_pos hsame]

/-- C8 (code bug): when the owner of tracked thread 1 leaves, the close
attempt sends the notice but then raises AttributeError (the source reads
`self.tag`, the bot defines `tags`), so no archiving/closed-label edit is
ever issued; the registry entry, activity entry, pending reminder and bump
flag are nevertheless all removed by the `finally` cleanup. -/
theorem owner_leave_cleanup_without_close_edit :
    (close_thread_on_leave c8_state c8_rec).err = some PyError.attributeError ∧
    (on_member_remove c8_state 10 true).effects =
      [Effect.sendMessage 1 NoticeKind.closedOpLeft] ∧
    (on_member_remove c8_state 10 true).err = none ∧
    findA (on_member_remove c8_state 10 true).state.track_posts 10 = none ∧
    findA (on_member_remove c8_state 10 true).state.activity 1 = none ∧
    findA (on_member_remove c8_state 10 true).state.scheduled_reminders 1 = none ∧
    findA (on_member_remove c8_state 10 true).state.bump_bool 1 = none := by
  decide

/-- C10: a message from a bot author is filtered out before any tracking
read or write: the handler leaves the entire state unchanged and issues no
outbound command, whatever the thread and whatever the rest of the state. -/
theorem bot_message_is_noop (s : BotState) (thread_id : Nat) (t : ThreadInfo)
    (author_id : Nat) (now : Int) :
    handle_thread_message s thread_id t author_id true now =
      { state := s, effects := [], err := none } := by
  by_cases hp : t.parent_id ≠ TROUBLESHOOT_FORUM_ID
  · simp only [handle_thread_message, if_pos hp]
  · simp only [handle_thread_message, if_neg hp]
    simp

/-- C3 (code bug): the firing does re-measure elapsed time (line 590), but
neither branch behaves as the claim states.  At elapsed time exactly the
reminder interval it sets bumpEligible and sends the inactivity notice, then
raises TypeError at line 610 (`list + ForumTag`): the inactive label is
never applied and the pop at line 594 is skipped, so the pending handle
(token 7) stays registered.  At one second short of the interval it performs
no transition yet still pops the handle — not a no-op on the thread's
state. -/
theorem reminder_fire_breaks_inactive_transition :
    findA (reminder_task_fires c3_state 1 10 7 REMINDER_TIME).state.bump_bool 1 =
      some true ∧
    (reminder_task_fires c3_state 1 10 7 REMINDER_TIME).effects =
      [Effect.sendMessage 1 (NoticeKind.inactivity 0)] ∧
    (reminder_task_fires c3_state 1 10 7 REMINDER_TIME).err = some PyError.typeError ∧
    findA (reminder_task_fires c3_state 1 10 7 REMINDER_TIME).state.scheduled_reminders 1 =
      some 7 ∧
    (reminder_task_fires c3_state 1 10 7 (REMINDER_TIME - 1)).effects = [] ∧
    (reminder_task_fires c3_state 1 10 7 (REMINDER_TIME - 1)).err = none ∧
    findA (reminder_task_fires c3_state 1 10 7
      (REMINDER_TIME - 1)).state.scheduled_reminders 1 = none := by
  decide

/-- C4 (code bug): the sweep's selection measures elapsed inactivity with
`>=` (line 620), so the boundary matches the claim — exactly at the
threshold it attempts the close, one second below it touches nothing — but
the attempted close never completes: the notice is sent and then TypeError
is raised at line 643 before the archiving edit, aborting the whole sweep,
so no thread is ever actually closed. -/
theorem autoclose_attempt_at_threshold_never_completes :
    (check_inactivity_task c4_state c4_world AUTO_CLOSE_TIME).effects =
      [Effect.sendMessage 1 NoticeKind.closedInactivity] ∧
    (check_inactivity_task c4_state c4_world AUTO_CLOSE_TIME).err =
      some PyError.typeError ∧
    (check_inactivity_task c4_state c4_world AUTO_CLOSE_TIME).state = c4_state ∧
    (check_inactivity_task c4_state c4_world (AUTO_CLOSE_TIME - 1)).effects = [] ∧
    (check_inactivity_task c4_state c4_world (AUTO_CLOSE_TIME - 1)).err = none ∧
    (check_inactivity_task c4_state c4_world (AUTO_CLOSE_TIME - 1)).state = c4_state := by
  decide

/-- C7: for a non-staff owner, pressing the priority button escalates iff the
thread's bump flag is true at that moment; a successful escalation posts the
priority notice, consumes the flag (set to false) while leaving registry,
activity and reminders untouched and issuing no label edit, and an
immediately repeated attempt is rejected with the permission message. -/
theorem owner_bump_gated_by_eligibility (s : BotState) (thread_id user_id : Nat) :
    ((Effect.postEscalation BUMP_CHANNEL_ID thread_id user_id BumpReason.inactivePost ∈
        (mark_priority_callback s thread_id user_id false true BumpReason.inactivePost true).2) ↔
      (findA s.bump_bool thread_id).getD false = true) ∧
    ((findA s.bump_bool thread_id).getD false = true →
      findA (mark_priority_callback s thread_id user_id false true BumpReason.inactivePost
          true).1.bump_bool thread_id = some false ∧
      (mark_priority_callback s thread_id user_id false true BumpReason.inactivePost
          true).1.track_posts = s.track_posts ∧
      (mark_priority_callback s thread_id user_id false true BumpReason.inactivePost
          true).1.activity = s.activity ∧
      (mark_priority_callback s thread_id user_id false true BumpReason.inactivePost
          true).1.scheduled_reminders = s.scheduled_reminders ∧
      (mark_priority_callback s thread_id user_id false true BumpReason.inactivePost
          true).2 =
        [Effect.postEscalation BUMP_CHANNEL_ID thread_id user_id BumpReason.inactivePost,
         Effect.confirmBump user_id] ∧
      (mark_priority_callback
          (mark_priority_callback s thread_id user_id false true BumpReason.inactivePost
            true).1 thread_id user_id false true BumpReason.inactivePost true).2 =
        [Effect.permissionMessage user_id]) := by
  by_cases hb : (findA s.bump_bool thread_id).getD false = true
  · have hfind : findA (insertA s.bump_bool thread_id false) thread_id = some false := by
      rw [findA_insertA, if_pos rfl]
    constructor
    · simp [mark_priority_callback, process_bump, hb]
    · intro _
      refine ⟨?_, ?_, ?_, ?_, ?_, ?_⟩
      · simp only [mark_priority_callback, process_bump, hb]
        simp [hfind]
      · simp [mark_priority_callback, process_bump, hb]
      · simp [mark_priority_callback, process_bump, hb]
      · simp [mark_priority_callback, process_bump, hb]
      · simp [mark_priority_callback, process_bump, hb]
      · simp [mark_priority_callback, process_bump, hb, hfind]
  · constructor
    · simp [mark_priority_callback, process_bump, hb]
    · intro hcon
      exact absurd hcon hb

/-- C9 counterexample: in a thread that does not yet carry the in-progress
label, a message from a new author (55 was the responder, the owner 10
posts) updates the responder, refreshes the activity timestamp and clears
bump eligibility, but does not reschedule the reminder: line 533 raises
TypeError before the reset at line 537, so the reminder dictionary and the
token counter are unchanged. -/
theorem message_without_label_skips_reschedule :
    findA (handle_thread_message c9x_state 1 c9x_thread 10 false 77).state.track_posts 10 =
      some ({ c9x_rec with last_responder := 10 }) ∧
    findA (handle_thread_message c9x_state 1 c9x_thread 10 false 77).state.activity 1 =
      some 77 ∧
    findA (handle_thread_message c9x_state 1 c9x_thread 10 false 77).state.bump_bool 1 =
      some false ∧
    (handle_thread_message c9x_state 1 c9x_thread 10 false 77).state.scheduled_reminders =
      c9x_state.scheduled_reminders ∧
    (handle_thread_message c9x_state 1 c9x_thread 10 false 77).state.next_token =
      c9x_state.next_token ∧
    (handle_thread_message c9x_state 1 c9x_thread 10 false 77).err =
      some PyError.typeError := by
  decide

/-- C9 (amended): at creation the tracked record's responder field is
initialised to the owner's own id (the registration at line 462 precedes
the TypeError at line 463), so the owner's consecutive initial messages
never advance the thread; any later message from a different author —
including the owner after someone else responded — updates the responder,
refreshes the activity timestamp and clears bump eligibility, and re-arms
the reminder exactly when the in-progress label is already applied to the
thread; when that label is absent, line 533 raises TypeError before the
reset, leaving the reminder dictionary untouched. -/
theorem responder_initialization_and_advance (s : BotState) (thread_id : Nat)
    (t : ThreadInfo) (author_id : Nat) (r : TrackRecord) (now now2 : Int)
    (hparent : t.parent_id = TROUBLESHOOT_FORUM_ID) :
    (findA s.track_posts t.owner_id = none →
      findA (on_thread_create s thread_id t now).state.track_posts t.owner_id =
        some { thread_id := thread_id, last_responder := t.owner_id,
               creation_tags := t.applied_tags }) ∧
    (findA s.track_posts t.owner_id = some r → r.last_responder = author_id →
      handle_thread_message s thread_id t author_id false now2 =
        { state := s, effects := [], err := none }) ∧
    (findA s.track_posts t.owner_id = some r → r.last_responder ≠ author_id →
      findA (handle_thread_message s thread_id t author_id false now2).state.track_posts
          t.owner_id = some ({ r with last_responder := author_id }) ∧
      findA (handle_thread_message s thread_id t author_id false now2).state.activity
          thread_id = some now2 ∧
      findA (handle_thread_message s thread_id t author_id false now2).state.bump_bool
          thread_id = some false ∧
      (in_progress_tag ∈ t.applied_tags →
        (handle_thread_message s thread_id t author_id false now2).err = none ∧
        findA (handle_thread_message s thread_id t author_id false
            now2).state.scheduled_reminders thread_id = some s.next_token ∧
        (handle_thread_message s thread_id t author_id false now2).state.next_token =
          s.next_token + 1) ∧
      (in_progress_tag ∉ t.applied_tags →
        (handle_thread_message s thread_id t author_id false now2).err =
          some PyError.typeError ∧
        (handle_thread_message s thread_id t author_id false
            now2).state.scheduled_reminders = s.scheduled_reminders ∧
        (handle_thread_message s thread_id t author_id false now2).state.next_token =
          s.next_token)) := by
  have hp : ¬ t.parent_id ≠ TROUBLESHOOT_FORUM_ID := by simp [hparent]
  refine ⟨?_, ?_, ?_⟩
  · intro hnone
    simp only [on_thread_create, if_neg hp, hnone, setup_new_thread]
    rw [findA_insertA, if_pos rfl]
  · intro hsome hsame
    simp only [handle_thread_message, if_neg hp, Bool.false_eq_true, if_false, hsome,
      if_pos hsame]
  · intro hsome hne
    by_cases htag : in_progress_tag ∈ t.applied_tags
    · simp only [handle_thread_message, if_neg hp, Bool.false_eq_true, if_false, hsome,
        if_neg hne, if_pos htag]
      cases hrem : findA s.scheduled_reminders thread_id with
      | none =>
        simp only [reset_thread_reminder, hrem]
        refine ⟨?_, ?_, ?_, ?_, ?_⟩
        · rw [findA_insertA, if_pos rfl]
        · rw [findA_insertA, if_pos rfl]
        · rw [findA_insertA, if_pos rfl]
        · intro hx
          refine ⟨trivial, ?_, trivial⟩
          rw [findA_insertA, if_pos rfl]
        · intro hx
          exact absurd htag hx
      | some tok =>
        simp only [reset_thread_reminder, hrem]
        refine ⟨?_, ?_, ?_, ?_, ?_⟩
        · rw [findA_insertA, if_pos rfl]
        · rw [findA_insertA, if_pos rfl]
        · rw [findA_insertA, if_pos rfl]
        · intro hx
          refine ⟨trivial, ?_, trivial⟩
          rw [findA_insertA, if_pos rfl]
        · intro hx
          exact absurd htag hx
    · simp only [handle_thread_message, if_neg hp, Bool.false_eq_true, if_false, hsome,
        if_neg hne, if_neg htag]
      refine ⟨?_, ?_, ?_, ?_, ?_⟩
      · rw [findA_insertA, if_pos rfl]
      · rw [findA_insertA, if_pos rfl]
      · rw [findA_insertA, if_pos rfl]
      · intro hx
        exact absurd hx htag
      · intro hx
        exact ⟨trivial, trivial, trivial⟩

theorem reminderInv_bump (s : BotState) (a b : Nat) (st op2 ch : Bool) (reason : BumpReason)
    (h : ReminderInv s) :
    ReminderInv (mark_priority_callback s a b st op2 reason ch).1 := by
  have hp : ∀ (x : Bool) (rsn : BumpReason), ReminderInv (process_bump s a b x rsn ch).1 := by
    intro x rsn
    unfold process_bump
    split
    · exact h
    · cases x
      · exact h
      · exact h
  unfold mark_priority_callback
  split
  · exact hp op2 reason
  · split
    · exact hp op2 BumpReason.inactivePost
    · exact h

/-- C5 counterexample: a reminder firing that transitions thread 1 into
Inactive (bump eligibility set to true, inactivity notice sent) does not
clear the pending reminder handle: the TypeError at line 610 skips the pop
at line 594, and the handle token 7 stays registered — while the fired task
itself is finished, so the entry dangles. -/
theorem inactive_entry_leaves_handle_registered :
    findA (reminder_task_fires c5f_state 1 10 7 REMINDER_TIME).state.bump_bool 1 =
      some true ∧
    (reminder_task_fires c5f_state 1 10 7 REMINDER_TIME).effects =
      [Effect.sendMessage 1 (NoticeKind.inactivity 0)] ∧
    findA (reminder_task_fires c5f_state 1 10 7 REMINDER_TIME).state.scheduled_reminders 1 =
      some 7 ∧
    (reminder_task_fires c5f_state 1 10 7 REMINDER_TIME).state.live_tasks = [] := by
  decide

/-- C5 (amended): every serialized event preserves the single-live-reminder
invariant (each reschedule cancels the existing task before arming a new
one, so no thread ever has two live reminders), and the cleanup run on any
close or deletion leaves no pending handle for the thread; a reminder
firing on a tracked thread, however, clears its handle only in the stale
branch — on the transition into Inactive the TypeError at line 610 skips
the pop at line 594 and the (dead) handle entry stays exactly as it was. -/
theorem at_most_one_live_reminder (s : BotState) (ev : Op)
    (hinv : ReminderInv s) (hok : OpOk s ev) :
    ReminderInv (applyOp s ev).state ∧
    (∀ tid uid, findA (cleanup_thread s tid uid).scheduled_reminders tid = none) ∧
    (∀ tid oid tok now last r, findA s.activity tid = some last →
      findA s.track_posts oid = some r →
      (REMINDER_TIME ≤ now - last →
        findA (reminder_task_fires s tid oid tok now).state.scheduled_reminders tid =
          findA s.scheduled_reminders tid) ∧
      (now - last < REMINDER_TIME →
        findA (reminder_task_fires s tid oid tok now).state.scheduled_reminders tid =
          none)) := by
  refine ⟨?_, ?_, ?_⟩
  · cases ev with
    | threadCreate tid t now =>
      by_cases hp : t.parent_id ≠ TROUBLESHOOT_FORUM_ID
      · simp only [applyOp, on_thread_create, if_pos hp]
        exact hinv
      · cases hdup : findA s.track_posts t.owner_id with
        | some r =>
          simp only [applyOp, on_thread_create, if_neg hp, hdup]
          exact hinv
        | none =>
          simp only [applyOp, on_thread_create, if_neg hp, hdup, setup_new_thread]
          exact hinv
    | message tid t aid abot now =>
      by_cases hp : t.parent_id ≠ TROUBLESHOOT_FORUM_ID
      · simp only [applyOp, handle_thread_message, if_pos hp]
        exact hinv
      · cases abot with
        | true =>
          simp only [applyOp, handle_thread_message, if_neg hp]
          simp only [if_true]
          exact hinv
        | false =>
          cases hr : findA s.track_posts t.owner_id with
          | none =>
            simp only [applyOp, handle_thread_message, if_neg hp, Bool.false_eq_true,
              if_false, hr]
            exact hinv
          | some r =>
            by_cases hsame : r.last_responder = aid
            · simp only [applyOp, handle_thread_message, if_neg hp, Bool.false_eq_true,
                if_false, hr, if_pos hsame]
              exact hinv
            · by_cases htag : in_progress_tag ∈ t.applied_tags
              · simp only [applyOp, handle_thread_message, if_neg hp, Bool.false_eq_true,
                  if_false, hr, if_neg hsame, if_pos htag]
                exact reminderInv_reset _ _ hinv
              · simp only [applyOp, handle_thread_message, if_neg hp, Bool.false_eq_true,
                  if_false, hr, if_neg hsame, if_neg htag]
                exact hinv
    | reminderFires tid oid tok now =>
      exact reminderInv_fire s tid oid tok now hinv hok
    | memberRemove uid res =>
      have hcl : ¬ ¬ CLOSE_ON_LEAVE = true := by simp [CLOSE_ON_LEAVE]
      cases hr : findA s.track_posts uid with
      | none =>
        simp only [applyOp, on_member_remove, if_neg hcl, hr]
        exact hinv
      | some r =>
        cases res with
        | true =>
          simp only [applyOp, on_member_remove, if_neg hcl, hr, close_thread_on_leave,
            botHasAttr, if_true]
          simp only [Bool.false_eq_true, if_false]
          exact reminderInv_cleanup_thread s r.thread_id uid hinv
        | false =>
          simp only [applyOp, on_member_remove, if_neg hcl, hr, Bool.false_eq_true, if_false]
          exact reminderInv_cleanup_thread s r.thread_id uid hinv
    | sweep world now =>
      cases hserr : (sweep_scan s.track_posts world now s.activity).err with
      | some e =>
        simp only [applyOp, check_inactivity_task, hserr]
        exact hinv
      | none =>
        simp only [applyOp, check_inactivity_task, hserr]
        exact reminderInv_sweep_cleanup _ s hinv
    | threadDelete tid t =>
      by_cases hp : t.parent_id ≠ TROUBLESHOOT_FORUM_ID
      · simp only [applyOp, on_thread_delete, if_pos hp]
        exact hinv
      · by_cases htag : solved_closed_tag ∈ t.applied_tags
        · simp only [applyOp, on_thread_delete, if_neg hp, if_pos htag]
          exact hinv
        · simp only [applyOp, on_thread_delete, if_neg hp, if_neg htag]
          exact reminderInv_cleanup_thread s tid t.owner_id hinv
    | closePress tid oid uid isown isstaff r =>
      cases hcond : isown || isstaff with
      | true =>
        simp only [applyOp, close_button_press, hcond, if_true, buttonHasAttr]
        simp only [Bool.false_eq_true, if_false]
        exact hinv
      | false =>
        simp only [applyOp, close_button_press, hcond, Bool.false_eq_true, if_false]
        exact hinv
    | bumpPress tid uid isstaff isop reason chfound =>
      exact reminderInv_bump s tid uid isstaff isop chfound reason hinv
  · intro tid uid
    cases hrem : findA s.scheduled_reminders tid with
    | none =>
      simp only [cleanup_thread, hrem]
    | some tok =>
      simp only [cleanup_thread, hrem]
      exact findA_eraseA_self _ _
  · intro tid oid tok now last r hact hro
    constructor
    · intro hcmp
      simp only [reminder_task_fires, hact, if_pos hcmp, hro]
    · intro hlt
      have hcmp : ¬ REMINDER_TIME ≤ now - last := not_le.mpr hlt
      simp only [reminder_task_fires, hact, if_neg hcmp]
      exact findA_eraseA_self _ _

/-! ## Witnesses -/

theorem at_most_one_live_reminder_witness :
    ReminderInv emptyState ∧ OpOk emptyState c5_op ∧
    (ReminderInv (applyOp emptyState c5_op).state ∧
     (∀ tid uid, findA (cleanup_thread emptyState tid uid).scheduled_reminders tid = none) ∧
     (∀ tid oid tok now last r, findA emptyState.activity tid = some last →
       findA emptyState.track_posts oid = some r →
       (REMINDER_TIME ≤ now - last →
         findA (reminder_task_fires emptyState tid oid tok now).state.scheduled_reminders
           tid = findA emptyState.scheduled_reminders tid) ∧
       (now - last < REMINDER_TIME →
         findA (reminder_task_fires emptyState tid oid tok now).state.scheduled_reminders
           tid = none))) := by
  have hinv0 : ReminderInv emptyState := by
    constructor
    · simp [emptyState]
    · intro p hp
      simp [emptyState] at hp
  have hok0 : OpOk emptyState c5_op := by
    simp only [OpOk, c5_op]
    intro p hp
    simp [emptyState] at hp
  exact ⟨hinv0, hok0, at_most_one_live_reminder emptyState c5_op hinv0 hok0⟩

theorem same_author_message_is_noop_witness :
    c6_thread.parent_id = TROUBLESHOOT_FORUM_ID ∧
    findA c6_state.track_posts c6_thread.owner_id = some c6_rec ∧
    c6_rec.last_responder = 22 ∧
    handle_thread_message c6_state 1 c6_thread 22 false 99 =
      { state := c6_state, effects := [], err := none } :=
  ⟨rfl, by decide, rfl,
    same_author_message_is_noop c6_state 1 c6_thread 22 99 c6_rec rfl (by decide) rfl⟩

theorem owner_bump_gated_by_eligibility_witness :
    ((Effect.postEscalation BUMP_CHANNEL_ID 1 10 BumpReason.inactivePost ∈
        (mark_priority_callback c7_state 1 10 false true BumpReason.inactivePost true).2) ↔
      (findA c7_state.bump_bool 1).getD false = true) ∧
    (findA c7_state.bump_bool 1).getD false = true ∧
    (findA (mark_priority_callback c7_state 1 10 false true BumpReason.inactivePost
        true).1.bump_bool 1 = some false ∧
      (mark_priority_callback c7_state 1 10 false true BumpReason.inactivePost
        true).1.track_posts = c7_state.track_posts ∧
      (mark_priority_callback c7_state 1 10 false true BumpReason.inactivePost
        true).1.activity = c7_state.activity ∧
      (mark_priority_callback c7_state 1 10 false true BumpReason.inactivePost
        true).1.scheduled_reminders = c7_state.scheduled_reminders ∧
      (mark_priority_callback c7_state 1 10 false true BumpReason.inactivePost true).2 =
        [Effect.postEscalation BUMP_CHANNEL_ID 1 10 BumpReason.inactivePost,
         Effect.confirmBump 10] ∧
      (mark_priority_callback
          (mark_priority_callback c7_state 1 10 false true BumpReason.inactivePost
            true).1 1 10 false true BumpReason.inactivePost true).2 =
        [Effect.permissionMessage 10]) := by
  have h := owner_bump_gated_by_eligibility c7_state 1 10
  exact ⟨h.1, by decide, h.2 (by decide)⟩

theorem responder_initialization_and_advance_witness :
    c9_thread.parent_id = TROUBLESHOOT_FORUM_ID ∧
    findA c9_state.track_posts c9_thread.owner_id = some c9_rec ∧
    c9_rec.last_responder ≠ 10 ∧
    in_progress_tag ∈ c9_thread.applied_tags ∧
    (findA (handle_thread_message c9_state 1 c9_thread 10 false 77).state.track_posts
        c9_thread.owner_id = some ({ c9_rec with last_responder := 10 }) ∧
     findA (handle_thread_message c9_state 1 c9_thread 10 false 77).state.activity 1 =
       some 77 ∧
     findA (handle_thread_message c9_state 1 c9_thread 10 false 77).state.bump_bool 1 =
       some false ∧
     (handle_thread_message c9_state 1 c9_thread 10 false 77).err = none ∧
     findA (handle_thread_message c9_state 1 c9_thread 10 false
         77).state.scheduled_reminders 1 = some c9_state.next_token ∧
     (handle_thread_message c9_state 1 c9_thread 10 false 77).state.next_token =
       c9_state.next_token + 1) := by
  have h := responder_initialization_and_advance c9_state 1 c9_thread 10 c9_rec 0 77 rfl
  have hc := h.2.2 (by decide) (by decide)
  have hin := hc.2.2.2.1 (by decide)
  exact ⟨rfl, by decide, by decide, by decide,
    hc.1, hc.2.1, hc.2.2.1, hin.1, hin.2.1, hin.2.2⟩

end DiscordForums
